import Mathlib

/-!
Shallow embedding of the recipe-social-backend friendship engine.

The definitions below are translated from the repository's source:
`app/models/{user,friendship,post}.py` (data model), `app/utils/helpers.py`
(username cooldown), `app/utils/friends.py` (relationship queries and the
suggestion engine) and `app/api/friends.py` (the mutating endpoints).

The relational store is modelled as three lists (`users`, `friendships`,
`posts`); SQLAlchemy's `.first()` becomes `List.find?`, `.all()` with a
filter becomes `List.filter`, `IN`/`NOT IN` become list membership, and
`datetime.utcnow()` becomes an explicit `now : Int` parameter measured in
seconds.  `timedelta.days` is floor division by 86400, i.e. `Int.fdiv`.
HTTP exceptions become `Except.error` carrying the `detail` string, and the
`friendships` table's unique constraint on `(requester_id, addressee_id)`
is checked at insert time, as the database would on commit.
-/

namespace RecipeSocial

/-- `FriendshipStatus` enum from `app/models/friendship.py`. -/
inductive FriendshipStatus where
  | pending
  | accepted
  | declined
  | blocked
deriving DecidableEq, Repr

/-- `FriendsListVisibility` enum from `app/models/user.py`. -/
inductive FriendsListVisibility where
  | public
  | friends_only
  | «private»
deriving DecidableEq, Repr

/-- `PostStatus` enum from `app/models/post.py`. -/
inductive PostStatus where
  | draft
  | published
  | archived
deriving DecidableEq, Repr

/-- The fields of the `User` model that the friendship engine reads. -/
structure User where
  id : Nat
  friends_list_visibility : FriendsListVisibility
  discoverable_for_friends : Bool
  username_last_changed : Option Int
deriving DecidableEq, Repr

/-- The `Friendship` model: a directed edge with a status and timestamps. -/
structure Friendship where
  id : Nat
  requester_id : Nat
  addressee_id : Nat
  status : FriendshipStatus
  created_at : Int
  updated_at : Option Int
deriving DecidableEq, Repr

/-- The fields of the `Post` model that feed suggestion signals. -/
structure Post where
  user_id : Nat
  cuisine_type : Option String
  difficulty_level : Option String
  status : PostStatus
  created_at : Int
deriving DecidableEq, Repr

/-- The queryable store: the three tables the friendship engine touches. -/
structure DB where
  users : List User
  friendships : List Friendship
  posts : List Post
deriving DecidableEq, Repr

/-- The `or_(and_(...), and_(...))` filter used by `get_friendship_status`
in `app/utils/friends.py` to look up the edge of an unordered pair. -/
def friendship_query (user1_id user2_id : Nat) (f : Friendship) : Bool :=
  (f.requester_id == user1_id && f.addressee_id == user2_id) ||
  (f.requester_id == user2_id && f.addressee_id == user1_id)

/-- `get_friendship_status` from `app/utils/friends.py`: classify the
relationship between two users, returning the edge (if any) and a
relationship-type string. -/
def get_friendship_status (user1_id user2_id : Nat) (db : DB) :
    Option Friendship × String :=
  if user1_id == user2_id then (none, "self")
  else
    match db.friendships.find? (friendship_query user1_id user2_id) with
    | none => (none, "none")
    | some friendship =>
      if friendship.status = FriendshipStatus.accepted then
        (some friendship, "friend")
      else if friendship.status = FriendshipStatus.blocked then
        (some friendship, "blocked")
      else if friendship.status = FriendshipStatus.pending then
        if friendship.requester_id == user1_id then
          (some friendship, "pending_sent")
        else
          (some friendship, "pending_received")
      else if friendship.status = FriendshipStatus.declined then
        (some friendship, "declined")
      else
        (some friendship, "unknown")

/-- `can_view_friends_list` from `app/utils/friends.py`. -/
def can_view_friends_list (viewer profile_owner : User) (db : DB) : Bool :=
  if viewer.id == profile_owner.id then true
  else if profile_owner.friends_list_visibility = FriendsListVisibility.public then
    true
  else if profile_owner.friends_list_visibility = FriendsListVisibility.friends_only then
    (get_friendship_status viewer.id profile_owner.id db).2 == "friend"
  else
    false

/-- `get_friends_list` from `app/utils/friends.py`: the users connected to
`user_id` by an `accepted` edge. -/
def get_friends_list (user_id : Nat) (db : DB) : List User :=
  let friendships := db.friendships.filter (fun f =>
    (f.requester_id == user_id || f.addressee_id == user_id) &&
      decide (f.status = FriendshipStatus.accepted))
  let friend_ids := friendships.map (fun f =>
    if f.requester_id == user_id then f.addressee_id else f.requester_id)
  db.users.filter (fun u => friend_ids.contains u.id)

/-- `get_mutual_friends` from `app/utils/friends.py`: users appearing in
both friends lists. -/
def get_mutual_friends (user1_id user2_id : Nat) (db : DB) : List User :=
  let user1_friend_ids := (get_friends_list user1_id db).map (fun u => u.id)
  let user2_friend_ids := (get_friends_list user2_id db).map (fun u => u.id)
  db.users.filter (fun u =>
    user1_friend_ids.contains u.id && user2_friend_ids.contains u.id)

/-- `get_user_cuisine_types` from `app/utils/friends.py`: distinct non-null,
non-empty cuisine types of the user's published posts. -/
def get_user_cuisine_types (user_id : Nat) (db : DB) : List String :=
  let cuisines := (db.posts.filterMap (fun p =>
    if p.user_id == user_id && decide (p.status = PostStatus.published) then
      p.cuisine_type
    else none)).dedup
  cuisines.filter (fun c => !(c == ""))

/-- `get_user_difficulty_levels` from `app/utils/friends.py`. -/
def get_user_difficulty_levels (user_id : Nat) (db : DB) : List String :=
  let difficulties := (db.posts.filterMap (fun p =>
    if p.user_id == user_id && decide (p.status = PostStatus.published) then
      p.difficulty_level
    else none)).dedup
  difficulties.filter (fun c => !(c == ""))

/-- `is_recently_active` from `app/utils/friends.py`: the user has some post
(any status) created within the last `days` days. -/
def is_recently_active (user_id : Nat) (db : DB) (now : Int)
    (days : Int := 30) : Bool :=
  let recent_date := now - days * 86400
  db.posts.any (fun p => p.user_id == user_id && decide (recent_date ≤ p.created_at))

/-- `can_change_username` from `app/utils/helpers.py`: cooldown policy on
username changes.  Returns `(can_change, days_until_eligible)`. -/
def can_change_username (user : User) (now : Int) (months : Int := 3) :
    Bool × Int :=
  match user.username_last_changed with
  | none => (true, 0)
  | some last_changed =>
    let time_since_change := now - last_changed
    let required_wait := months * 30 * 86400
    if required_wait ≤ time_since_change then (true, 0)
    else
      let remaining_time := required_wait - time_since_change
      let days_remaining := remaining_time.fdiv 86400 + 1
      (false, days_remaining)

/-- One entry of the list built by `get_friend_suggestions` in
`app/utils/friends.py` (a dict in the source). -/
structure Suggestion where
  user : User
  score : Int
  reason : String
  mutual_friends_count : Nat
  common_cuisines : List String
deriving DecidableEq, Repr

/-- `calculate_suggestion_score` from `app/utils/friends.py`: additive score
plus a human-readable reason string. -/
def calculate_suggestion_score (current_user potential_friend : User)
    (db : DB) (now : Int) : Int × String :=
  let mutual_count := (get_mutual_friends current_user.id potential_friend.id db).length
  let score : Int := 0
  let reasons : List String := []
  let (score, reasons) :=
    if mutual_count > 0 then
      (score + (mutual_count : Int) * 10,
       reasons ++ [toString mutual_count ++ " mutual friend" ++
         (if mutual_count ≠ 1 then "s" else "")])
    else (score, reasons)
  let current_user_cuisines := get_user_cuisine_types current_user.id db
  let potential_friend_cuisines := get_user_cuisine_types potential_friend.id db
  let common_cuisines :=
    current_user_cuisines.filter (fun c => potential_friend_cuisines.contains c)
  let (score, reasons) :=
    if common_cuisines ≠ [] then
      (score + (common_cuisines.length : Int) * 5,
       reasons ++ ["Cooks " ++ String.intercalate ", " (common_cuisines.take 2) ++
         " cuisine"])
    else (score, reasons)
  let current_user_difficulties := get_user_difficulty_levels current_user.id db
  let potential_friend_difficulties := get_user_difficulty_levels potential_friend.id db
  let common_difficulties :=
    current_user_difficulties.filter (fun c => potential_friend_difficulties.contains c)
  let (score, reasons) :=
    if common_difficulties ≠ [] then
      (score + (common_difficulties.length : Int) * 3,
       reasons ++ ["Similar cooking difficulty"])
    else (score, reasons)
  let (score, reasons) :=
    if is_recently_active potential_friend.id db now then
      (score + 2, reasons ++ ["Active user"])
    else (score, reasons)
  let reason := if reasons ≠ [] then String.intercalate " • " reasons else "New user"
  (score, reason)

/-- `get_friend_suggestions` from `app/utils/friends.py`: score the
discoverable, not-yet-connected users, keep positive scores, sort
descending by score and truncate to `limit`. -/
def get_friend_suggestions (user : User) (db : DB) (now : Int)
    (limit : Nat := 10) : List Suggestion :=
  if !user.discoverable_for_friends then []
  else
    let current_friends_and_requests := db.friendships.filter (fun f =>
      f.requester_id == user.id || f.addressee_id == user.id)
    let excluded_user_ids :=
      user.id :: current_friends_and_requests.map (fun f =>
        if f.requester_id == user.id then f.addressee_id else f.requester_id)
    let potential_friends := db.users.filter (fun u =>
      !(excluded_user_ids.contains u.id) && u.discoverable_for_friends)
    let suggestions := potential_friends.filterMap (fun potential_friend =>
      let (score, reason) := calculate_suggestion_score user potential_friend db now
      if score > 0 then
        some { user := potential_friend
               score := score
               reason := reason
               mutual_friends_count :=
                 (get_mutual_friends user.id potential_friend.id db).length
               common_cuisines :=
                 (get_user_cuisine_types user.id db).filter (fun c =>
                   (get_user_cuisine_types potential_friend.id db).contains c) }
      else none)
    let sorted := suggestions.mergeSort (fun a b => decide (b.score ≤ a.score))
    sorted.take limit

/-- The database's `UniqueConstraint('requester_id', 'addressee_id')` from
`app/models/friendship.py`, enforced when a new edge is committed. -/
def insert_friendship (f : Friendship) (db : DB) : Except String DB :=
  if db.friendships.any (fun g =>
      g.requester_id == f.requester_id && g.addressee_id == f.addressee_id) then
    Except.error "UNIQUE constraint failed: friendships.requester_id, friendships.addressee_id"
  else
    Except.ok { db with friendships := db.friendships ++ [f] }

/-- `send_friend_request` from `app/api/friends.py`.  `new_id` stands for the
id the database assigns to a freshly inserted row and `now` for the server
timestamp.  Mirrors the handler's check order: target existence, self-check,
then the relationship-type cases (note the source has no case for a
`declined` relationship, which therefore falls through to the insert). -/
def send_friend_request (user_id : Nat) (current_user : User) (db : DB)
    (new_id : Nat) (now : Int) : Except String DB :=
  match db.users.find? (fun u => u.id == user_id) with
  | none => Except.error "User not found"
  | some _target_user =>
    if user_id == current_user.id then
      Except.error "Cannot send friend request to yourself"
    else
      let (existing_friendship, relationship) :=
        get_friendship_status current_user.id user_id db
      match existing_friendship with
      | some _ =>
        if relationship == "friend" then
          Except.error "Already friends with this user"
        else if relationship == "pending_sent" then
          Except.error "Friend request already sent"
        else if relationship == "pending_received" then
          Except.error "This user has already sent you a friend request"
        else if relationship == "blocked" then
          Except.error "Cannot send friend request to this user"
        else
          insert_friendship
            { id := new_id, requester_id := current_user.id,
              addressee_id := user_id, status := FriendshipStatus.pending,
              created_at := now, updated_at := none } db
      | none =>
        insert_friendship
          { id := new_id, requester_id := current_user.id,
            addressee_id := user_id, status := FriendshipStatus.pending,
            created_at := now, updated_at := none } db

/-- `accept_friend_request` from `app/api/friends.py`: the addressee of a
pending request flips its status to `accepted` and stamps `updated_at`. -/
def accept_friend_request (request_id : Nat) (current_user : User) (db : DB)
    (now : Int) : Except String DB :=
  match db.friendships.find? (fun f => f.id == request_id) with
  | none => Except.error "Friend request not found"
  | some friend_request =>
    if friend_request.addressee_id ≠ current_user.id then
      Except.error "You can only accept requests sent to you"
    else if friend_request.status ≠ FriendshipStatus.pending then
      Except.error "Request is no longer pending"
    else
      Except.ok { db with friendships := db.friendships.map (fun f =>
        if f.id == request_id then
          { f with status := FriendshipStatus.accepted, updated_at := some now }
        else f) }

/-- `decline_friend_request` from `app/api/friends.py`. -/
def decline_friend_request (request_id : Nat) (current_user : User) (db : DB)
    (now : Int) : Except String DB :=
  match db.friendships.find? (fun f => f.id == request_id) with
  | none => Except.error "Friend request not found"
  | some friend_request =>
    if friend_request.addressee_id ≠ current_user.id then
      Except.error "You can only decline requests sent to you"
    else if friend_request.status ≠ FriendshipStatus.pending then
      Except.error "Request is no longer pending"
    else
      Except.ok { db with friendships := db.friendships.map (fun f =>
        if f.id == request_id then
          { f with status := FriendshipStatus.declined, updated_at := some now }
        else f) }

/-- `block_user` from `app/api/friends.py`: transition any existing edge to
`blocked` (re-orienting it so the blocker is the requester), or create a
fresh blocked edge when none exists. -/
def block_user (user_id : Nat) (current_user : User) (db : DB) (new_id : Nat)
    (now : Int) : Except String DB :=
  if user_id == current_user.id then
    Except.error "Cannot block yourself"
  else
    match db.users.find? (fun u => u.id == user_id) with
    | none => Except.error "User not found"
    | some _target_user =>
      let (existing_friendship, relationship) :=
        get_friendship_status current_user.id user_id db
      match existing_friendship with
      | some fr =>
        if relationship == "blocked" then
          Except.error "User is already blocked"
        else
          Except.ok { db with friendships := db.friendships.map (fun f =>
            if f.id == fr.id then
              let f := { f with status := FriendshipStatus.blocked,
                                updated_at := some now }
              if f.requester_id ≠ current_user.id then
                { f with requester_id := f.addressee_id,
                         addressee_id := f.requester_id }
              else f
            else f) }
      | none =>
        insert_friendship
          { id := new_id, requester_id := current_user.id,
            addressee_id := user_id, status := FriendshipStatus.blocked,
            created_at := now, updated_at := none } db

/-- Python's `str.lower()`, modelled character-wise so that it is
kernel-computable (the cuisine strings in play are ASCII). -/
def py_lower (s : String) : String := String.mk (s.data.map Char.toLower)

/-- `explore_friends` from `app/api/friends.py`: suggestions over a doubled
pool, optionally filtered case-insensitively by a cuisine, truncated to
`limit`.  A `None` or empty filter string is falsy in the source and skips
the filtering step. -/
def explore_friends (cuisine_filter : Option String) (limit : Nat)
    (current_user : User) (db : DB) (now : Int) : List Suggestion :=
  let suggestions_data := get_friend_suggestions current_user db now (limit * 2)
  let suggestions_data :=
    match cuisine_filter with
    | some s =>
      if s ≠ "" then
        suggestions_data.filter (fun (suggestion : Suggestion) =>
          (suggestion.common_cuisines.map py_lower).contains (py_lower s))
      else suggestions_data
    | none => suggestions_data
  suggestions_data.take limit

/-! ### Concrete fixtures used by witnesses and counterexamples -/

/-- A user with id 1, default privacy settings. -/
def userA : User :=
  { id := 1, friends_list_visibility := FriendsListVisibility.public,
    discoverable_for_friends := true, username_last_changed := none }

/-- A user with id 2, default privacy settings. -/
def userB : User :=
  { id := 2, friends_list_visibility := FriendsListVisibility.public,
    discoverable_for_friends := true, username_last_changed := none }

/-- A user with id 3. -/
def userC : User :=
  { id := 3, friends_list_visibility := FriendsListVisibility.public,
    discoverable_for_friends := true, username_last_changed := none }

/-- A user with id 4. -/
def userD : User :=
  { id := 4, friends_list_visibility := FriendsListVisibility.public,
    discoverable_for_friends := true, username_last_changed := none }

/-- A `declined` edge user 1 → user 2. -/
def edge_declined_12 : Friendship :=
  { id := 1, requester_id := 1, addressee_id := 2,
    status := FriendshipStatus.declined, created_at := 0, updated_at := some 50 }

/-- Store holding users 1 and 2 and the declined edge 1 → 2. -/
def db_declined : DB :=
  { users := [userA, userB], friendships := [edge_declined_12], posts := [] }

/-- Store holding only users 1 and 2, no edges. -/
def db_two_users : DB :=
  { users := [userA, userB], friendships := [], posts := [] }

/-- The store obtained from `db_declined` by user 2 re-sending a request to
user 1: the declined edge survives and a second, pending edge appears. -/
def db_declined_then_resent : DB :=
  { users := [userA, userB],
    friendships :=
      [edge_declined_12,
       { id := 2, requester_id := 2, addressee_id := 1,
         status := FriendshipStatus.pending, created_at := 100,
         updated_at := none }],
    posts := [] }

/-- The store reached from `db_two_users` by send 1→2, decline by 2, then
send 2→1: two edges for the unordered pair {1,2}. -/
def db_duplicate_pair : DB :=
  { users := [userA, userB],
    friendships :=
      [{ id := 1, requester_id := 1, addressee_id := 2,
         status := FriendshipStatus.declined, created_at := 10,
         updated_at := some 20 },
       { id := 2, requester_id := 2, addressee_id := 1,
         status := FriendshipStatus.pending, created_at := 30,
         updated_at := none }],
    posts := [] }

/-! ### C1: a declined edge does not stop a new request -/

/-- Claim C1 (code bug): with a `declined` edge between users 1 and 2 in the
store, user 2's `SendRequest(2,1)` does not fail: the handler in
`app/api/friends.py` has no branch for the `declined` relationship type, so
the call falls through, succeeds, and inserts a second (pending) edge for
the same unordered pair, leaving the declined edge in place. -/
theorem send_request_after_decline_succeeds :
    send_friend_request 1 userB db_declined 2 100 =
      Except.ok db_declined_then_resent ∧
    (db_declined_then_resent.friendships.filter (friendship_query 1 2)).length = 2 ∧
    (db_declined.friendships.filter (friendship_query 1 2)).length = 1 :=
  ⟨rfl, rfl, rfl⟩

/-! ### C2: the unordered-pair uniqueness invariant is reachable-violated -/

/-- Claim C2 (code bug): starting from an edge-free store, the public
operation sequence `SendRequest(1,2)`, `Decline` by user 2, then
`SendRequest(2,1)` succeeds end to end and leaves two `Friendship` edges for
the unordered pair {1,2}, violating the at-most-one-edge-per-pair
invariant (the ordered `(requester_id, addressee_id)` unique constraint does
not catch the reversed direction). -/
theorem duplicate_pair_edge_reachable :
    (send_friend_request 2 userA db_two_users 1 10 >>= fun db1 =>
      decline_friend_request 1 userB db1 20 >>= fun db2 =>
        send_friend_request 1 userB db2 2 30) = Except.ok db_duplicate_pair ∧
    (db_duplicate_pair.friendships.filter (friendship_query 1 2)).length = 2 :=
  ⟨rfl, rfl⟩

/-! ### C4: username-change cooldown -/

/-- The spec's phrase for C4: "the ceiling of the remaining duration in
days", for a duration given in seconds. -/
def ceil_days_spec (secs : Int) : Int := -((-secs).fdiv 86400)

/-- A user whose username was last changed at time 0. -/
def user89 : User :=
  { id := 9, friends_list_visibility := FriendsListVisibility.public,
    discoverable_for_friends := true, username_last_changed := some 0 }

/-- Claim C4 counterexample: with the last change exactly 89 days ago and a
3-month (90-day) cooldown the remaining duration is exactly 1 day, whose
ceiling in days is 1, but the code (`remaining_time.days + 1`) returns
`days_remaining = 2`, not the claimed 1. -/
theorem can_change_username_ceiling_counterexample :
    can_change_username user89 (89 * 86400) 3 = (false, 2) ∧
    ceil_days_spec (3 * 30 * 86400 - 89 * 86400) = 1 ∧
    (2 : Int) ≠ 1 :=
  ⟨rfl, rfl, by decide⟩

/-- Auxiliary: for a positive divisor, floor division plus one is the
ceiling exactly when the divisor does not divide the numerator. -/
theorem fdiv_add_one_eq_ceil_of_not_dvd (s : Int)
    (hnd : ¬ ((86400 : Int) ∣ s)) :
    s.fdiv 86400 + 1 = -((-s).fdiv 86400) := by
  rw [Int.fdiv_eq_ediv _ (by norm_num), Int.fdiv_eq_ediv _ (by norm_num)]
  omega

/-- Claim C4 amended: `CanChangeUsername` returns `(true, 0)` when the user
never changed username or the elapsed time is at least `months × 30` days;
otherwise it returns `false` together with `floor(remaining days) + 1`,
which is at least 1, and which equals the ceiling of the remaining duration
whenever that duration is not an exact whole number of days (when it is,
the code returns ceiling + 1). -/
theorem can_change_username_cooldown (user : User) (now months : Int) :
    (user.username_last_changed = none →
      can_change_username user now months = (true, 0)) ∧
    (∀ last, user.username_last_changed = some last →
      (months * 30 * 86400 ≤ now - last →
        can_change_username user now months = (true, 0)) ∧
      (now - last < months * 30 * 86400 →
        can_change_username user now months =
          (false, (months * 30 * 86400 - (now - last)).fdiv 86400 + 1) ∧
        1 ≤ (months * 30 * 86400 - (now - last)).fdiv 86400 + 1 ∧
        (¬ ((86400 : Int) ∣ (months * 30 * 86400 - (now - last))) →
          (months * 30 * 86400 - (now - last)).fdiv 86400 + 1 =
            ceil_days_spec (months * 30 * 86400 - (now - last))))) := by
  constructor
  · intro h
    unfold can_change_username
    rw [h]
  · intro last hlast
    constructor
    · intro hle
      unfold can_change_username
      rw [hlast]
      simp [hle]
    · intro hlt
      refine ⟨?_, ?_, ?_⟩
      · unfold can_change_username
        rw [hlast]
        simp [not_le.mpr hlt]
      · have h0 : 0 ≤ (months * 30 * 86400 - (now - last)).fdiv 86400 :=
          Int.fdiv_nonneg (by omega) (by norm_num)
        omega
      · intro hnd
        exact fdiv_add_one_eq_ceil_of_not_dvd _ hnd

/-- Witness for C4's amended theorem: one second past 89 days into a 90-day
cooldown, the code returns `(false, 1)`. -/
theorem can_change_username_cooldown_witness :
    can_change_username user89 (89 * 86400 + 1) 3 = (false, 1) := by
  have h := ((can_change_username_cooldown user89 (89 * 86400 + 1) 3).2 0
    rfl).2 (by decide)
  exact h.1.trans (by decide)

/-! ### C3: the suggestion-score formula -/

/-- An accepted edge 1 – 3. -/
def edge_accepted_13 : Friendship :=
  { id := 1, requester_id := 1, addressee_id := 3,
    status := FriendshipStatus.accepted, created_at := 0, updated_at := none }

/-- An accepted edge 1 – 4. -/
def edge_accepted_14 : Friendship :=
  { id := 2, requester_id := 1, addressee_id := 4,
    status := FriendshipStatus.accepted, created_at := 0, updated_at := none }

/-- An accepted edge 3 – 2. -/
def edge_accepted_32 : Friendship :=
  { id := 3, requester_id := 3, addressee_id := 2,
    status := FriendshipStatus.accepted, created_at := 0, updated_at := none }

/-- An accepted edge 2 – 4. -/
def edge_accepted_24 : Friendship :=
  { id := 4, requester_id := 2, addressee_id := 4,
    status := FriendshipStatus.accepted, created_at := 0, updated_at := none }

/-- Published italian/easy recipe by user 1, created at time 0. -/
def post_userA : Post :=
  { user_id := 1, cuisine_type := some "italian",
    difficulty_level := some "easy", status := PostStatus.published,
    created_at := 0 }

/-- Published italian/hard recipe by user 2, created at time 10000000. -/
def post_userB : Post :=
  { user_id := 2, cuisine_type := some "italian",
    difficulty_level := some "hard", status := PostStatus.published,
    created_at := 10000000 }

/-- Store where users 1 and 2 have mutual friends 3 and 4, share the
cuisine "italian", share no difficulty level, and user 2 has a recent
post. -/
def db_score : DB :=
  { users := [userA, userB, userC, userD],
    friendships := [edge_accepted_13, edge_accepted_14, edge_accepted_32,
      edge_accepted_24],
    posts := [post_userA, post_userB] }

/-- Claim C3: the suggestion score is
`10 × mutualCount + 5 × |shared published cuisines| +
3 × |shared published difficulty levels| + 2 if recently active`,
each term absent when its signal is absent; in particular 2 mutual friends,
1 shared cuisine, 0 shared difficulties and recent activity score 27. -/
theorem calculate_suggestion_score_formula :
    (∀ (current_user potential_friend : User) (db : DB) (now : Int),
      (calculate_suggestion_score current_user potential_friend db now).1 =
        10 * ((get_mutual_friends current_user.id potential_friend.id db).length : Int) +
        5 * (((get_user_cuisine_types current_user.id db).filter (fun c =>
            (get_user_cuisine_types potential_friend.id db).contains c)).length : Int) +
        3 * (((get_user_difficulty_levels current_user.id db).filter (fun c =>
            (get_user_difficulty_levels potential_friend.id db).contains c)).length : Int) +
        (if is_recently_active potential_friend.id db now then 2 else 0)) ∧
    (calculate_suggestion_score userA userB db_score 10000000).1 = 27 := by
  constructor
  · intro current_user potential_friend db now
    dsimp only [calculate_suggestion_score]
    split_ifs <;>
      simp_all only [not_ne_iff, not_lt, Nat.le_zero, List.length_nil] <;>
      omega
  · rfl

/-! ### C5 and C6: relationship classification and friends-list privacy -/

/-- Auxiliary: `find?` returns the unique element satisfying the predicate
when there is exactly one. -/
theorem find?_eq_some_of_unique {α : Type} (p : α → Bool) {l : List α} {e : α}
    (he : e ∈ l) (hpe : p e = true)
    (huniq : ∀ x ∈ l, p x = true → x = e) :
    l.find? p = some e := by
  induction l with
  | nil => cases he
  | cons a l ih =>
    rcases List.mem_cons.mp he with rfl | hmem
    · rw [List.find?_cons_of_pos _ hpe]
    · by_cases hpa : p a = true
      · have ha : a = e := huniq a (List.mem_cons_self a l) hpa
        rw [List.find?_cons_of_pos _ hpa, ha]
      · rw [List.find?_cons_of_neg _ (by simpa using hpa)]
        exact ih hmem (fun x hx hpx => huniq x (List.mem_cons_of_mem a hx) hpx)

/-- Auxiliary: the unordered-pair lookup predicate is symmetric in the two
user ids. -/
theorem friendship_query_symm (a b : Nat) (f : Friendship) :
    friendship_query b a f = friendship_query a b f := by
  simp [friendship_query, Bool.or_comm]

/-- Claim C5: `GetRelationship(A,A)` is `self`; with no edge for the pair it
is `none`; with a single edge for the pair, `accepted` classifies as
`friend` and `blocked` as `blocked` identically from both sides, and
`pending` classifies as `pending_sent` exactly for the stored requester and
`pending_received` for the other user. -/
theorem get_relationship_classification (a b : Nat) (db : DB) (hab : a ≠ b) :
    get_friendship_status a a db = (none, "self") ∧
    ((∀ f ∈ db.friendships, friendship_query a b f = false) →
      get_friendship_status a b db = (none, "none")) ∧
    (∀ e ∈ db.friendships, friendship_query a b e = true →
      (∀ f ∈ db.friendships, friendship_query a b f = true → f = e) →
      ((e.status = FriendshipStatus.accepted →
        get_friendship_status a b db = (some e, "friend") ∧
        get_friendship_status b a db = (some e, "friend")) ∧
       (e.status = FriendshipStatus.blocked →
        get_friendship_status a b db = (some e, "blocked") ∧
        get_friendship_status b a db = (some e, "blocked")) ∧
       (e.status = FriendshipStatus.pending →
        get_friendship_status a b db =
          (some e, if e.requester_id = a then "pending_sent"
                   else "pending_received") ∧
        get_friendship_status b a db =
          (some e, if e.requester_id = b then "pending_sent"
                   else "pending_received")))) := by
  have hba : b ≠ a := fun h => hab h.symm
  refine ⟨by simp [get_friendship_status], ?_, ?_⟩
  · intro hnone
    have hfind : db.friendships.find? (friendship_query a b) = none :=
      List.find?_eq_none.mpr (fun x hx => by simp [hnone x hx])
    simp [get_friendship_status, hab, hfind]
  · intro e he hq huniq
    have hfind : db.friendships.find? (friendship_query a b) = some e :=
      find?_eq_some_of_unique _ he hq huniq
    have hfind2 : db.friendships.find? (friendship_query b a) = some e := by
      have hfun : friendship_query b a = friendship_query a b :=
        funext (friendship_query_symm a b)
      rw [hfun]
      exact hfind
    refine ⟨?_, ?_, ?_⟩ <;> intro hstatus <;>
      constructor <;>
      (simp [get_friendship_status, hab, hba, hfind, hfind2, hstatus] <;>
        split_ifs <;> rfl)

/-- A pending edge user 1 → user 2. -/
def edge_pending_12 : Friendship :=
  { id := 7, requester_id := 1, addressee_id := 2,
    status := FriendshipStatus.pending, created_at := 0, updated_at := none }

/-- Store with users 1 and 2 and the pending edge 1 → 2. -/
def db_pending : DB :=
  { users := [userA, userB], friendships := [edge_pending_12], posts := [] }

/-- Witness for C5: the pending edge 1 → 2 reads `pending_sent` for user 1
and `pending_received` for user 2. -/
theorem get_relationship_classification_witness :
    get_friendship_status 1 2 db_pending = (some edge_pending_12, "pending_sent") ∧
    get_friendship_status 2 1 db_pending = (some edge_pending_12, "pending_received") := by
  have h := ((get_relationship_classification 1 2 db_pending (by decide)).2.2
    edge_pending_12 (by simp [db_pending]) (by decide)
    (by intro f hf _; simpa [db_pending] using hf)).2.2 rfl
  exact ⟨h.1.trans (by decide), h.2.trans (by decide)⟩

/-- Claim C6: `CanViewFriendsList` is true for the owner themself, true for
`public` visibility, false for `private` visibility, and for `friends_only`
visibility true exactly when an accepted edge connects viewer and owner
(store assumed to hold at most one edge for the pair). -/
theorem can_view_friends_list_policy (viewer owner : User) (db : DB)
    (huniq : ∀ f ∈ db.friendships, ∀ g ∈ db.friendships,
      friendship_query viewer.id owner.id f = true →
      friendship_query viewer.id owner.id g = true → f = g) :
    (viewer.id = owner.id → can_view_friends_list viewer owner db = true) ∧
    (viewer.id ≠ owner.id →
      (owner.friends_list_visibility = FriendsListVisibility.public →
        can_view_friends_list viewer owner db = true) ∧
      (owner.friends_list_visibility = FriendsListVisibility.«private» →
        can_view_friends_list viewer owner db = false) ∧
      (owner.friends_list_visibility = FriendsListVisibility.friends_only →
        (can_view_friends_list viewer owner db = true ↔
          ∃ f ∈ db.friendships, friendship_query viewer.id owner.id f = true ∧
            f.status = FriendshipStatus.accepted))) := by
  refine ⟨fun h => by simp [can_view_friends_list, h], fun hne => ⟨?_, ?_, ?_⟩⟩
  · intro hvis
    simp [can_view_friends_list, hvis]
  · intro hvis
    simp [can_view_friends_list, hvis, hne]
  · intro hvis
    constructor
    · intro hview
      rcases hf : db.friendships.find? (friendship_query viewer.id owner.id) with _ | e
      · simp [can_view_friends_list, get_friendship_status, hne, hvis, hf] at hview
      · have hmem := List.mem_of_find?_eq_some hf
        have hq := List.find?_some hf
        cases hst : e.status with
        | accepted => exact ⟨e, hmem, hq, hst⟩
        | pending =>
          by_cases hreq : e.requester_id = viewer.id <;>
            simp [can_view_friends_list, get_friendship_status, hne, hvis, hf,
              hst, hreq] at hview
        | declined =>
          simp [can_view_friends_list, get_friendship_status, hne, hvis, hf,
            hst] at hview
        | blocked =>
          simp [can_view_friends_list, get_friendship_status, hne, hvis, hf,
            hst] at hview
    · rintro ⟨f, hfmem, hfq, hfacc⟩
      have hfind : db.friendships.find? (friendship_query viewer.id owner.id) = some f :=
        find?_eq_some_of_unique _ hfmem hfq
          (fun x hx hqx => huniq x hx f hfmem hqx hfq)
      simp [can_view_friends_list, get_friendship_status, hne, hvis, hfind, hfacc]

/-- An owner with id 2 whose friends list is visible to friends only. -/
def user_friends_only : User :=
  { id := 2, friends_list_visibility := FriendsListVisibility.friends_only,
    discoverable_for_friends := true, username_last_changed := none }

/-- An owner with id 3 whose friends list is private. -/
def user_private : User :=
  { id := 3, friends_list_visibility := FriendsListVisibility.«private»,
    discoverable_for_friends := true, username_last_changed := none }

/-- An accepted edge user 1 – user 2. -/
def edge_accepted_12 : Friendship :=
  { id := 11, requester_id := 1, addressee_id := 2,
    status := FriendshipStatus.accepted, created_at := 0, updated_at := none }

/-- Store where user 1 and the friends-only owner 2 are friends. -/
def db_accepted : DB :=
  { users := [userA, user_friends_only, user_private],
    friendships := [edge_accepted_12], posts := [] }

/-- Witness for C6: a friend may view a `friends_only` list; a stranger may
not view a `private` list. -/
theorem can_view_friends_list_policy_witness :
    can_view_friends_list userA user_friends_only db_accepted = true ∧
    can_view_friends_list userA user_private db_accepted = false := by
  constructor
  · exact (((can_view_friends_list_policy userA user_friends_only db_accepted
      (by intro f hf g hg _ _; simp [db_accepted] at hf hg; rw [hf, hg])).2
      (by decide)).2.2 rfl).mpr
      ⟨edge_accepted_12, by simp [db_accepted], by decide, rfl⟩
  · exact ((can_view_friends_list_policy userA user_private db_accepted
      (by intro f hf g hg _ _; simp [db_accepted] at hf hg; rw [hf, hg])).2
      (by decide)).2.1 rfl

/-! ### C7: blocking -/

/-- Auxiliary: for distinct users, the edge returned by
`get_friendship_status` is exactly the result of the pair lookup. -/
theorem get_friendship_status_fst (u1 u2 : Nat) (db : DB) (hne : u1 ≠ u2) :
    (get_friendship_status u1 u2 db).1 =
      db.friendships.find? (friendship_query u1 u2) := by
  rw [get_friendship_status, if_neg (by simpa using hne)]
  cases db.friendships.find? (friendship_query u1 u2) with
  | none => rfl
  | some f =>
    cases hst : f.status <;> simp [hst]
    split_ifs <;> rfl

/-- Claim C7: `Block` fails on self-block, missing target and already
blocked edges; an existing edge in any other state is transitioned to
`blocked` with the blocker recorded as requester (swapping the stored
direction when needed) and nothing else in the store changes; with no
existing edge a fresh blocked edge requester=blocker is appended. -/
theorem block_user_spec (user_id : Nat) (current_user : User) (db : DB)
    (new_id : Nat) (now : Int) :
    (user_id = current_user.id →
      block_user user_id current_user db new_id now =
        Except.error "Cannot block yourself") ∧
    (user_id ≠ current_user.id →
      db.users.find? (fun u => u.id == user_id) = none →
      block_user user_id current_user db new_id now =
        Except.error "User not found") ∧
    (∀ target, user_id ≠ current_user.id →
      db.users.find? (fun u => u.id == user_id) = some target →
      (∀ e, (get_friendship_status current_user.id user_id db).1 = some e →
        (e.status = FriendshipStatus.blocked →
          block_user user_id current_user db new_id now =
            Except.error "User is already blocked") ∧
        (e.status ≠ FriendshipStatus.blocked → ∃ db',
          block_user user_id current_user db new_id now = Except.ok db' ∧
          db'.users = db.users ∧ db'.posts = db.posts ∧
          db'.friendships.length = db.friendships.length ∧
          ({ id := e.id, requester_id := current_user.id,
             addressee_id := user_id, status := FriendshipStatus.blocked,
             created_at := e.created_at,
             updated_at := some now } : Friendship) ∈ db'.friendships ∧
          (∀ g ∈ db.friendships, g.id ≠ e.id → g ∈ db'.friendships))) ∧
      ((get_friendship_status current_user.id user_id db).1 = none →
        block_user user_id current_user db new_id now =
          Except.ok { db with friendships := db.friendships ++
            [{ id := new_id, requester_id := current_user.id,
               addressee_id := user_id, status := FriendshipStatus.blocked,
               created_at := now, updated_at := none }] })) := by
  have hself : ∀ (h : user_id = current_user.id),
      block_user user_id current_user db new_id now =
        Except.error "Cannot block yourself" := by
    intro h
    rw [block_user, if_pos (by simpa using h)]
  refine ⟨hself, ?_, ?_⟩
  · intro hne hfu
    rw [block_user, if_neg (by simpa using hne), hfu]
  · intro target hne hfu
    have hcne : current_user.id ≠ user_id := fun h => hne h.symm
    constructor
    · intro e hfst
      rw [get_friendship_status_fst _ _ _ hcne] at hfst
      have hq : friendship_query current_user.id user_id e = true :=
        List.find?_some hfst
      have hmem : e ∈ db.friendships := List.mem_of_find?_eq_some hfst
      have hgfs : ∀ r, (if e.status = FriendshipStatus.accepted then
            (some e, "friend")
          else if e.status = FriendshipStatus.blocked then (some e, "blocked")
          else if e.status = FriendshipStatus.pending then
            (if e.requester_id == current_user.id then (some e, "pending_sent")
             else (some e, "pending_received"))
          else if e.status = FriendshipStatus.declined then
            (some e, "declined")
          else (some e, "unknown")) = r →
          get_friendship_status current_user.id user_id db = r := by
        intro r hr
        rw [get_friendship_status, if_neg (by simpa using hcne), hfst, ← hr]
      constructor
      · intro hblocked
        have h1 := hgfs (some e, "blocked") (by simp [hblocked])
        rw [block_user, if_neg (by simpa using hne), hfu, h1]
        try rfl
      · intro hnb
        -- the updated edge always ends with requester = blocker
        have hqd : (e.requester_id = current_user.id ∧
            e.addressee_id = user_id) ∨
            (e.requester_id = user_id ∧ e.addressee_id = current_user.id) := by
          simp only [friendship_query, Bool.or_eq_true, Bool.and_eq_true,
            beq_iff_eq] at hq
          exact hq
        have hupd : (fun f : Friendship =>
            if f.id == e.id then
              let f2 : Friendship :=
                { f with status := FriendshipStatus.blocked,
                         updated_at := some now }
              if f2.requester_id ≠ current_user.id then
                { f2 with requester_id := f2.addressee_id,
                          addressee_id := f2.requester_id }
              else f2
            else f) e =
            ({ id := e.id, requester_id := current_user.id,
               addressee_id := user_id, status := FriendshipStatus.blocked,
               created_at := e.created_at,
               updated_at := some now } : Friendship) := by
          rcases hqd with ⟨hr, ha⟩ | ⟨hr, ha⟩
          · simp [hr, ha]
          · have hner : e.requester_id ≠ current_user.id := by
              rw [hr]; exact hne
            simp [hner, hr, ha, hne]
        have hok : block_user user_id current_user db new_id now =
            Except.ok { db with friendships := db.friendships.map (fun f =>
              if f.id == e.id then
                let f2 : Friendship :=
                  { f with status := FriendshipStatus.blocked,
                           updated_at := some now }
                if f2.requester_id ≠ current_user.id then
                  { f2 with requester_id := f2.addressee_id,
                            addressee_id := f2.requester_id }
                else f2
              else f) } := by
          cases hst : e.status with
          | accepted =>
            have h1 := hgfs (some e, "friend") (by simp [hst])
            rw [block_user, if_neg (by simpa using hne), hfu, h1]
            try rfl
          | pending =>
            by_cases hreq : e.requester_id == current_user.id
            · have h1 := hgfs (some e, "pending_sent") (by simp [hst, hreq])
              rw [block_user, if_neg (by simpa using hne), hfu, h1]
              try rfl
            · have h1 := hgfs (some e, "pending_received")
                (by simp [hst, hreq])
              rw [block_user, if_neg (by simpa using hne), hfu, h1]
              try rfl
          | declined =>
            have h1 := hgfs (some e, "declined") (by simp [hst])
            rw [block_user, if_neg (by simpa using hne), hfu, h1]
            try rfl
          | blocked => exact absurd hst hnb
        refine ⟨_, hok, rfl, rfl, by simp, ?_, ?_⟩
        · have := List.mem_map_of_mem (fun f : Friendship =>
            if f.id == e.id then
              let f2 : Friendship :=
                { f with status := FriendshipStatus.blocked,
                         updated_at := some now }
              if f2.requester_id ≠ current_user.id then
                { f2 with requester_id := f2.addressee_id,
                          addressee_id := f2.requester_id }
              else f2
            else f) hmem
          rw [hupd] at this
          exact this
        · intro g hg hgid
          have := List.mem_map_of_mem (fun f : Friendship =>
            if f.id == e.id then
              let f2 : Friendship :=
                { f with status := FriendshipStatus.blocked,
                         updated_at := some now }
              if f2.requester_id ≠ current_user.id then
                { f2 with requester_id := f2.addressee_id,
                          addressee_id := f2.requester_id }
              else f2
            else f) hg
          simpa [hgid] using this
    · intro hfst
      rw [get_friendship_status_fst _ _ _ hcne] at hfst
      have hnoedge := List.find?_eq_none.mp hfst
      have hins : insert_friendship
          { id := new_id, requester_id := current_user.id,
            addressee_id := user_id, status := FriendshipStatus.blocked,
            created_at := now, updated_at := none } db =
          Except.ok { db with friendships := db.friendships ++
            [{ id := new_id, requester_id := current_user.id,
               addressee_id := user_id, status := FriendshipStatus.blocked,
               created_at := now, updated_at := none }] } := by
        rw [insert_friendship, if_neg]
        simp only [List.any_eq_true, Bool.and_eq_true, beq_iff_eq, not_exists,
          not_and]
        intro g hg hgr
        intro hga
        exact absurd (by simp [friendship_query, hgr, hga]) (hnoedge g hg)
      have hg : get_friendship_status current_user.id user_id db = (none, "none") := by
        rw [get_friendship_status, if_neg (by simpa using hcne), hfst]
      rw [block_user, if_neg (by simpa using hne), hfu, hg]
      exact hins

/-- Witness for C7: user 2 blocking user 1 over the pending edge 1 → 2
re-orients the edge so the blocker is the stored requester. -/
theorem block_user_spec_witness :
    ∃ db', block_user 1 userB db_pending 8 500 = Except.ok db' ∧
      ({ id := 7, requester_id := 2, addressee_id := 1,
         status := FriendshipStatus.blocked, created_at := 0,
         updated_at := some 500 } : Friendship) ∈ db'.friendships := by
  obtain ⟨db', hok, -, -, -, hmemb, -⟩ :=
    (((block_user_spec 1 userB db_pending 8 500).2.2 userA (by decide) rfl).1
      edge_pending_12 rfl).2 (by decide)
  exact ⟨db', hok, hmemb⟩

/-! ### C10: accept/decline only touch status and updated_at -/

/-- Auxiliary frame facts about the status-update map both responders
perform on the friendships table. -/
theorem update_status_frame (request_id : Nat) (l : List Friendship)
    (st : FriendshipStatus) (now : Int) :
    ((l.map (fun f => if f.id == request_id then
        { f with status := st, updated_at := some now } else f)).length =
      l.length) ∧
    (∀ g ∈ l, g.id ≠ request_id →
      g ∈ l.map (fun f => if f.id == request_id then
        { f with status := st, updated_at := some now } else f)) ∧
    (∀ g ∈ l, g.id = request_id →
      ({ g with status := st, updated_at := some now } : Friendship) ∈
        l.map (fun f => if f.id == request_id then
          { f with status := st, updated_at := some now } else f)) ∧
    (∀ g' ∈ l.map (fun f => if f.id == request_id then
        { f with status := st, updated_at := some now } else f),
      ∃ g ∈ l, g'.id = g.id ∧ g'.requester_id = g.requester_id ∧
        g'.addressee_id = g.addressee_id ∧ g'.created_at = g.created_at ∧
        (g' = g ∨ (g.id = request_id ∧ g'.status = st ∧
          g'.updated_at = some now))) := by
  refine ⟨List.length_map _ _, ?_, ?_, ?_⟩
  · intro g hg hgid
    have := List.mem_map_of_mem (fun f : Friendship =>
      if f.id == request_id then
        { f with status := st, updated_at := some now } else f) hg
    simpa [hgid] using this
  · intro g hg hgid
    have := List.mem_map_of_mem (fun f : Friendship =>
      if f.id == request_id then
        { f with status := st, updated_at := some now } else f) hg
    simpa [hgid] using this
  · intro g' hg'
    rcases List.mem_map.mp hg' with ⟨g, hg, himg⟩
    by_cases hid : g.id = request_id
    · rw [if_pos (by simpa using hid)] at himg
      subst himg
      exact ⟨g, hg, rfl, rfl, rfl, rfl, Or.inr ⟨hid, rfl, rfl⟩⟩
    · rw [if_neg (by simpa using hid)] at himg
      subst himg
      exact ⟨g, hg, rfl, rfl, rfl, rfl, Or.inl rfl⟩

/-- Claim C10: a successful accept or decline changes only the status and
`updated_at` of the targeted edge — ids, requester, addressee and
`created_at` are untouched, no edge is created or deleted, and the other
tables are untouched. -/
theorem respond_request_frame (request_id : Nat) (current_user : User)
    (db : DB) (now : Int) :
    (∀ db', accept_friend_request request_id current_user db now =
        Except.ok db' →
      db'.users = db.users ∧ db'.posts = db.posts ∧
      db'.friendships.length = db.friendships.length ∧
      (∀ g ∈ db.friendships, g.id ≠ request_id → g ∈ db'.friendships) ∧
      (∀ g ∈ db.friendships, g.id = request_id →
        ({ g with status := FriendshipStatus.accepted,
                  updated_at := some now } : Friendship) ∈ db'.friendships) ∧
      (∀ g' ∈ db'.friendships, ∃ g ∈ db.friendships,
        g'.id = g.id ∧ g'.requester_id = g.requester_id ∧
        g'.addressee_id = g.addressee_id ∧ g'.created_at = g.created_at ∧
        (g' = g ∨ (g.id = request_id ∧
          g'.status = FriendshipStatus.accepted ∧
          g'.updated_at = some now)))) ∧
    (∀ db', decline_friend_request request_id current_user db now =
        Except.ok db' →
      db'.users = db.users ∧ db'.posts = db.posts ∧
      db'.friendships.length = db.friendships.length ∧
      (∀ g ∈ db.friendships, g.id ≠ request_id → g ∈ db'.friendships) ∧
      (∀ g ∈ db.friendships, g.id = request_id →
        ({ g with status := FriendshipStatus.declined,
                  updated_at := some now } : Friendship) ∈ db'.friendships) ∧
      (∀ g' ∈ db'.friendships, ∃ g ∈ db.friendships,
        g'.id = g.id ∧ g'.requester_id = g.requester_id ∧
        g'.addressee_id = g.addressee_id ∧ g'.created_at = g.created_at ∧
        (g' = g ∨ (g.id = request_id ∧
          g'.status = FriendshipStatus.declined ∧
          g'.updated_at = some now)))) := by
  constructor
  · intro db' h
    rw [accept_friend_request] at h
    split at h
    · exact Except.noConfusion h
    · split_ifs at h
      rw [Except.ok.injEq] at h
      subst h
      obtain ⟨hlen, hmem1, hmem2, hinv⟩ := update_status_frame request_id
        db.friendships FriendshipStatus.accepted now
      exact ⟨rfl, rfl, hlen, hmem1, hmem2, hinv⟩
  · intro db' h
    rw [decline_friend_request] at h
    split at h
    · exact Except.noConfusion h
    · split_ifs at h
      rw [Except.ok.injEq] at h
      subst h
      obtain ⟨hlen, hmem1, hmem2, hinv⟩ := update_status_frame request_id
        db.friendships FriendshipStatus.declined now
      exact ⟨rfl, rfl, hlen, hmem1, hmem2, hinv⟩

/-- The edge of `db_pending` after being accepted at time 600. -/
def edge_accepted_after : Friendship :=
  { id := 7, requester_id := 1, addressee_id := 2,
    status := FriendshipStatus.accepted, created_at := 0,
    updated_at := some 600 }

/-- The store after user 2 accepts request 7 in `db_pending`. -/
def db_after_accept : DB :=
  { users := [userA, userB], friendships := [edge_accepted_after],
    posts := [] }

/-- Witness for C10: accepting the pending request 7 in `db_pending`
produces exactly the status/updated_at change, with the edge count
preserved. -/
theorem respond_request_frame_witness :
    accept_friend_request 7 userB db_pending 600 = Except.ok db_after_accept ∧
    db_after_accept.friendships.length = db_pending.friendships.length := by
  have h := (respond_request_frame 7 userB db_pending 600).1 db_after_accept
    rfl
  exact ⟨rfl, h.2.2.1⟩

/-! ### C8: shape of the suggestion list -/

/-- Claim C8: suggestions are empty for a non-discoverable user; otherwise
every returned candidate is a discoverable user other than the requester
with no edge of any state to them and a strictly positive score, the list
is sorted by descending score, and at most `limit` entries are returned. -/
theorem get_friend_suggestions_spec (user : User) (db : DB) (now : Int)
    (limit : Nat) :
    (user.discoverable_for_friends = false →
      get_friend_suggestions user db now limit = []) ∧
    (get_friend_suggestions user db now limit).length ≤ limit ∧
    List.Pairwise (fun a b : Suggestion => b.score ≤ a.score)
      (get_friend_suggestions user db now limit) ∧
    (∀ s ∈ get_friend_suggestions user db now limit,
      s.user ∈ db.users ∧ s.user.discoverable_for_friends = true ∧
      s.user.id ≠ user.id ∧ 0 < s.score ∧
      (∀ f ∈ db.friendships, friendship_query user.id s.user.id f = false)) := by
  cases hdisc : user.discoverable_for_friends with
  | false =>
    have hempty : get_friend_suggestions user db now limit = [] := by
      rw [get_friend_suggestions, hdisc]
      rfl
    refine ⟨fun _ => hempty, ?_, ?_, ?_⟩ <;> simp [hempty]
  | true =>
    have heq : get_friend_suggestions user db now limit =
        (((db.users.filter (fun u =>
            !((user.id :: (db.friendships.filter (fun f =>
                f.requester_id == user.id ||
                  f.addressee_id == user.id)).map
                (fun f => if f.requester_id == user.id then f.addressee_id
                          else f.requester_id)).contains u.id) &&
            u.discoverable_for_friends)).filterMap (fun potential_friend =>
          let (score, reason) :=
            calculate_suggestion_score user potential_friend db now
          if score > 0 then
            some { user := potential_friend
                   score := score
                   reason := reason
                   mutual_friends_count :=
                     (get_mutual_friends user.id potential_friend.id db).length
                   common_cuisines :=
                     (get_user_cuisine_types user.id db).filter (fun c =>
                       (get_user_cuisine_types potential_friend.id
                         db).contains c) }
          else none)).mergeSort
            (fun a b => decide (b.score ≤ a.score))).take limit := by
      rw [get_friend_suggestions, hdisc]
      rfl
    have htrans : ∀ (a b c : Suggestion),
        decide (b.score ≤ a.score) → decide (c.score ≤ b.score) →
        decide (c.score ≤ a.score) := by
      intro a b c hab hbc
      simp only [decide_eq_true_eq] at *
      omega
    have htotal : ∀ (a b : Suggestion),
        decide (b.score ≤ a.score) || decide (a.score ≤ b.score) := by
      intro a b
      simpa using Int.le_total b.score a.score
    refine ⟨fun hfalse => (by simp [hdisc] at hfalse), ?_, ?_, ?_⟩
    · rw [heq]
      simp only [List.length_take]
      omega
    · rw [heq]
      refine List.Pairwise.sublist (List.take_sublist _ _) ?_
      exact (List.sorted_mergeSort htrans htotal _).imp
        (fun h => of_decide_eq_true h)
    · intro s hs
      rw [heq] at hs
      have hs1 := List.mem_mergeSort.mp (List.take_subset _ _ hs)
      rcases List.mem_filterMap.mp hs1 with ⟨pf, hpf, hsome⟩
      rcases List.mem_filter.mp hpf with ⟨hmemu, hpred⟩
      rw [Bool.and_eq_true] at hpred
      rcases hpred with ⟨hnotc, hdiscpf⟩
      have hnotin : pf.id ∉ (user.id :: (db.friendships.filter (fun f =>
          f.requester_id == user.id || f.addressee_id == user.id)).map
          (fun f => if f.requester_id == user.id then f.addressee_id
                    else f.requester_id)) := by
        simpa using hnotc
      have hpfne : pf.id ≠ user.id := by
        intro hcontra
        exact hnotin (hcontra ▸ List.mem_cons_self _ _)
      rcases hcalc : calculate_suggestion_score user pf db now with ⟨sc, rs⟩
      rw [hcalc] at hsome
      dsimp only at hsome
      by_cases hsc : sc > 0
      · rw [if_pos hsc] at hsome
        have hrec := Option.some.inj hsome
        subst hrec
        refine ⟨hmemu, hdiscpf, hpfne, hsc, ?_⟩
        intro f hf
        rw [Bool.eq_false_iff]
        intro hqt
        simp only [friendship_query, Bool.or_eq_true, Bool.and_eq_true,
          beq_iff_eq] at hqt
        have hintail : pf.id ∈ (db.friendships.filter (fun f =>
            f.requester_id == user.id || f.addressee_id == user.id)).map
            (fun f => if f.requester_id == user.id then f.addressee_id
                      else f.requester_id) := by
          rcases hqt with ⟨hr, ha⟩ | ⟨hr, ha⟩
          · exact List.mem_map.mpr ⟨f,
              List.mem_filter.mpr ⟨hf, by simp [hr]⟩, by simp [hr, ha]⟩
          · exact List.mem_map.mpr ⟨f,
              List.mem_filter.mpr ⟨hf, by simp [ha]⟩, by simp [hr, hpfne]⟩
        exact hnotin (List.mem_cons_of_mem _ hintail)
      · rw [if_neg hsc] at hsome
        cases hsome

/-- A user with id 5 who opted out of suggestion discovery. -/
def user_not_discoverable : User :=
  { id := 5, friends_list_visibility := FriendsListVisibility.public,
    discoverable_for_friends := false, username_last_changed := none }

/-- Witness for C8: a non-discoverable user gets no suggestions, and a
discoverable one gets at most `limit` of them. -/
theorem get_friend_suggestions_spec_witness :
    get_friend_suggestions user_not_discoverable db_score 10000000 10 = [] ∧
    (get_friend_suggestions userA db_score 10000000 10).length ≤ 10 :=
  ⟨(get_friend_suggestions_spec user_not_discoverable db_score 10000000 10).1
      rfl,
    (get_friend_suggestions_spec userA db_score 10000000 10).2.1⟩

/-! ### C9: the explore variant and its cuisine filter -/

/-- Claim C9: `Explore` draws suggestions from a `2 × limit` pool; with a
cuisine filter given it keeps exactly the candidates whose common cuisines
contain the filter case-insensitively and truncates to `limit`, so every
returned candidate contains the filter cuisine; without a filter it just
truncates the doubled pool.  (An empty filter string is falsy in the
source, i.e. treated as no filter.) -/
theorem explore_friends_spec (limit : Nat) (current_user : User) (db : DB)
    (now : Int) :
    explore_friends none limit current_user db now =
      (get_friend_suggestions current_user db now (limit * 2)).take limit ∧
    (∀ s : String, s ≠ "" →
      explore_friends (some s) limit current_user db now =
        ((get_friend_suggestions current_user db now (limit * 2)).filter
          (fun suggestion =>
            (suggestion.common_cuisines.map py_lower).contains
              (py_lower s))).take limit) ∧
    (∀ s : String, s ≠ "" →
      ∀ c ∈ explore_friends (some s) limit current_user db now,
        py_lower s ∈ c.common_cuisines.map py_lower) ∧
    (∀ cuisine_filter,
      (explore_friends cuisine_filter limit current_user db now).length ≤
        limit) := by
  have hfiltered : ∀ s : String, s ≠ "" →
      explore_friends (some s) limit current_user db now =
        ((get_friend_suggestions current_user db now (limit * 2)).filter
          (fun suggestion =>
            (suggestion.common_cuisines.map py_lower).contains
              (py_lower s))).take limit := by
    intro s hs
    rw [explore_friends]
    rw [if_pos hs]
  refine ⟨rfl, hfiltered, ?_, ?_⟩
  · intro s hs c hc
    rw [hfiltered s hs] at hc
    have hcf := List.take_subset _ _ hc
    have hp := List.of_mem_filter hcf
    simpa using hp
  · intro cuisine_filter
    cases cuisine_filter with
    | none =>
      rw [explore_friends]
      simp only [List.length_take]
      omega
    | some s =>
      rw [explore_friends]
      split_ifs <;> (simp only [List.length_take]; omega)

/-- The single suggestion `explore_friends` returns for user 1 over
`db_score` when filtering by "ITALIAN". -/
def suggestion_italian : Suggestion :=
  { user := userB, score := 27,
    reason := "2 mutual friends • Cooks italian cuisine • Active user",
    mutual_friends_count := 2, common_cuisines := ["italian"] }

/-- Witness for C9: the candidate returned under the case-insensitive
filter "ITALIAN" indeed lists "italian" among its common cuisines. -/
theorem explore_friends_spec_witness :
    py_lower "ITALIAN" ∈ suggestion_italian.common_cuisines.map py_lower := by
  have hmem : suggestion_italian ∈
      explore_friends (some "ITALIAN") 5 userA db_score 10000000 := by
    have h1 : get_friend_suggestions userA db_score 10000000 (5 * 2) =
        ([suggestion_italian].mergeSort
          (fun a b => decide (b.score ≤ a.score))).take (5 * 2) := rfl
    have hexp : explore_friends (some "ITALIAN") 5 userA db_score 10000000 =
        [suggestion_italian] := by
      rw [explore_friends, h1, List.mergeSort_singleton]
      decide
    rw [hexp]
    exact List.mem_singleton_self _
  exact (explore_friends_spec 5 userA db_score 10000000).2.2.1 "ITALIAN"
    (by decide) suggestion_italian hmem

end RecipeSocial
